import Mathlib

/-!
Verification of the connectivity-and-time-aligned periodic broadcaster in
`src/main/main.cpp` (esp-timing-tests).

Time is modelled in clock ticks of the broadcast task's clock
(`std::chrono::high_resolution_clock`, microsecond resolution on the target),
as natural numbers of microseconds since the epoch.  Pure functions of the
source are translated to Lean functions; the two waiting loops (`app_main`'s
wait-for-wifi loop and `obtain_time`'s sync-poll loop) are translated to
explicit recursions over their observable inputs.
-/

namespace EspTiming

/-- Ticks of the broadcast clock per second (microsecond resolution). -/
def usecPerSec : Nat := 1000000

/-- `std::chrono::time_point_cast<std::chrono::seconds>(now)` (line 139):
truncation of `now` down to the start of its containing second. -/
def lastSecond (now : Nat) : Nat := usecPerSec * (now / usecPerSec)

/-- `next_send_time = last_second + 1s` (line 140). -/
def nextSendTime (now : Nat) : Nat := lastSecond now + usecPerSec

/-- `std::this_thread::sleep_until(deadline)` called at current time `cur`
(line 141): wakes at the deadline, or immediately when the deadline is
already past. -/
def sleepUntil (cur deadline : Nat) : Nat := max cur deadline

/-- One pass of `client_task_fn` (lines 134-141), viewed by its timing: the
clock is sampled as `t` at the start of the pass, the work (format, print,
send) finishes at `t + d`, and the task then sleeps until the absolute
deadline `nextSendTime t`.  The result is the instant the next pass starts. -/
def iterEnd (t d : Nat) : Nat := sleepUntil (t + d) (nextSendTime t)

/-- The broadcast loop: `client_task_fn` is re-invoked immediately after each
pass ends.  Given the start instant `t` of the first pass and the list of
work durations, returns the start instants of the successive passes. -/
def runLoop (t : Nat) : List Nat → List Nat
  | [] => []
  | d :: ds => t :: runLoop (iterEnd t d) ds

/-! ## Payload formatting

`fmt::format("{0:%FT%H:%M:}{1:%S}", now, now.time_since_epoch())` (line 135):
`%F` is the ISO-8601 date, then a literal `T`, `%H:%M:` the hour and minute,
and `%S` on the microsecond-resolution duration prints the seconds component
together with its fractional part (`SS.ffffff`).  The calendar conversion is
the standard proleptic-Gregorian civil-from-days computation used by
`std::chrono`/libc from days since 1970-01-01. -/

/-- Two-digit zero-padded decimal field. -/
def pad2 (n : Nat) : String := if n < 10 then "0" ++ toString n else toString n

/-- Four-digit zero-padded decimal field (years). -/
def pad4 (n : Nat) : String :=
  if n < 10 then "000" ++ toString n
  else if n < 100 then "00" ++ toString n
  else if n < 1000 then "0" ++ toString n
  else toString n

/-- Six-digit zero-padded decimal field (microsecond fraction). -/
def pad6 (n : Nat) : String :=
  let s := toString n
  String.mk (List.replicate (6 - s.length) '0') ++ s

/-- Civil (year, month, day) from days since 1970-01-01, proleptic Gregorian
calendar (the days-to-civil algorithm underlying `%F` formatting). -/
def civilFromDays (z0 : Nat) : Nat × Nat × Nat :=
  let z := z0 + 719468
  let era := z / 146097
  let doe := z % 146097
  let yoe := (doe - doe / 1460 + doe / 36524 - doe / 146096) / 365
  let y := yoe + era * 400
  let doy := doe - (365 * yoe + yoe / 4 - yoe / 100)
  let mp := (5 * doy + 2) / 153
  let d := doy - (153 * mp + 2) / 5 + 1
  let m := if mp < 10 then mp + 3 else mp - 9
  (if m ≤ 2 then y + 1 else y, m, d)

/-- `%FT%H:%M:` applied to the time point `u` (microseconds since epoch):
date, literal `T`, hour and minute fields. -/
def formatDateHM (u : Nat) : String :=
  let secs := u / usecPerSec
  let sod := secs % 86400
  let c := civilFromDays (secs / 86400)
  pad4 c.1 ++ "-" ++ pad2 c.2.1 ++ "-" ++ pad2 c.2.2 ++ "T" ++
    pad2 (sod / 3600) ++ ":" ++ pad2 (sod % 3600 / 60) ++ ":"

/-- `{1:%S}` applied to `now.time_since_epoch()`: the seconds component of the
duration with its fractional (microsecond) digits. -/
def formatSecFrac (u : Nat) : String :=
  pad2 (u / usecPerSec % 60) ++ "." ++ pad6 (u % usecPerSec)

/-- The payload string built on line 135 from the single clock sample `u`. -/
def formatTimestamp (u : Nat) : String := formatDateHM u ++ formatSecFrac u

/-! ## Sync status and the broadcast payload

The ambient SNTP sync state at broadcast time.  `client_task_fn`
(lines 125-142) never consults it: the payload is built from the clock
sample alone. -/

/-- Spec-level sync status (§3 of the design: Unsynced/Syncing/Synced/
TimedOut). -/
inductive SyncStatus
  | unsynced
  | syncing
  | synced
  | timedOut
deriving DecidableEq

/-- The payload emitted by one pass of `client_task_fn` as a function of the
ambient sync status and the clock sample: the task body (lines 134-138)
reads no sync state, so the payload is `formatTimestamp now` regardless of
the status. -/
def clientPayload : SyncStatus → Nat → String := fun _ now => formatTimestamp now

/-! ## One pass of `client_task_fn`, read-counted

`clock` enumerates the successive values `std::chrono::high_resolution_clock::now()`
would return; the body performs exactly one read, on line 134, and uses it
both for the payload and for the deadline. -/

/-- Result of one pass of `client_task_fn`: the payload it formats and
sends, the absolute deadline it sleeps until, and the index of the next
unconsumed clock reading. -/
structure ClientPass where
  payload : String
  deadline : Nat
  nextRead : Nat
deriving DecidableEq

/-- One pass of `client_task_fn` (lines 134-141) over the clock stream
`clock`, starting at read index `r`: samples the clock once, formats the
payload from that sample, and computes the deadline from the same sample. -/
def clientTaskBody (clock : Nat → Nat) (r : Nat) : ClientPass :=
  let now := clock r
  { payload := formatTimestamp now
    deadline := nextSendTime now
    nextRead := r + 1 }

/-! ## `obtain_time` (lines 71-85): the bounded sync-poll loop

`retry` starts at 0 and `retry_count = 15`; each evaluation of the loop
condition polls `sntp_get_sync_status()` once, and the loop body sleeps
2000 ms.  `status` gives the value of the `n`-th poll. -/

/-- `sntp_get_sync_status()` values. -/
inductive SntpSyncStatus
  | reset
  | inProgress
  | completed
deriving DecidableEq

/-- Number of polls allowed: `const int retry_count = 15` (line 78). -/
def retryCount : Nat := 15

/-- `vTaskDelay(2000 / portTICK_PERIOD_MS)` (line 81): 2000 ms between
polls. -/
def pollIntervalMs : Nat := 2000

/-- The wait loop of `obtain_time` from retry counter `retry`, poll index
`n` and time `t` (ms): returns the times of the status polls performed and
the status observed at the last poll.  Each condition evaluation polls once;
the loop continues only while the poll says `reset` and `++retry < 15`. -/
def obtainWaitFrom (status : Nat → SntpSyncStatus) (retry n t : Nat) :
    List Nat × SntpSyncStatus :=
  let s := status n
  if s = SntpSyncStatus.reset then
    if retry + 1 < retryCount then
      let rest := obtainWaitFrom status (retry + 1) (n + 1) (t + pollIntervalMs)
      (t :: rest.1, rest.2)
    else ([t], s)
  else ([t], s)
termination_by retryCount - retry

/-- The whole wait of `obtain_time`: retry counter 0, first poll at time 0. -/
def obtainWait (status : Nat → SntpSyncStatus) : List Nat × SntpSyncStatus :=
  obtainWaitFrom status 0 0 0

/-! ## `app_main` connectivity wait (lines 114-118)

`while (!wifi_sta.is_connected()) { log; sleep 1s; }` — app_main blocks here
until the link reports connected; there is no failure branch.  `conn k`
is the value of the `k`-th `is_connected()` poll. -/

/-- Outcome of running the orchestrator's connectivity phase for a bounded
number of polls.  `aborted` is the outcome of `ESP_ERROR_CHECK`/abort paths
(reachable only in the NVS-init phase, lines 93-99, never from the
connectivity wait); `stillWaiting` means the poll budget was spent with the
loop still spinning; `proceeded k` means the loop exited after the `k`-th
poll returned true and `app_main` went on to `obtain_time` and the
broadcast task. -/
inductive OrchOutcome
  | aborted
  | stillWaiting
  | proceeded (polls : Nat)
deriving DecidableEq

/-- The wait-for-wifi loop observed for at most `fuel` polls, polling from
index `k`: exits (and `app_main` proceeds) exactly when a poll returns
true; otherwise sleeps 1 s and polls again, forever. -/
def waitForConnection (conn : Nat → Bool) : Nat → Nat → OrchOutcome
  | 0, k => if conn k then OrchOutcome.proceeded k else OrchOutcome.stillWaiting
  | fuel + 1, k =>
    if conn k then OrchOutcome.proceeded k else waitForConnection conn fuel (k + 1)

/-! ## The broadcast loop with send results

`client_socket.send(payload, send_config)` (line 138) returns a success
value that the task body discards; no statement of `client_task_fn`
branches on it. -/

/-- One observed pass of the broadcast loop: its start instant and the
result of its `send` call. -/
structure BroadcastIter where
  start : Nat
  sendOk : Bool
deriving DecidableEq

/-- The broadcast loop threading per-pass work durations and send results:
each pass records its start and its send outcome; the next start is
`iterEnd` of the duration alone, since line 138's result is discarded. -/
def runLoopSends (t : Nat) : List (Nat × Bool) → List BroadcastIter
  | [] => []
  | (d, ok) :: rest => ⟨t, ok⟩ :: runLoopSends (iterEnd t d) rest

/-! ## The restart counter (lines 29-33)

`RTC_DATA_ATTR static int boot_count = 0;` — initialized to zero on
first-ever boot, kept in RTC memory across deep-sleep resets.  No other
statement in `main.cpp` mentions `boot_count`: nothing increments, writes
or reads it. -/

/-- Value of `boot_count` observed during boot number `b` (the first-ever
boot is `b = 0`): zero-initialized once, then carried over unchanged
because the program contains no mutation of it. -/
def bootCountAfter : Nat → Nat
  | 0 => 0
  | b + 1 => bootCountAfter b

/-! ## Simulated sources for the scenario claims -/

/-- A link that never reports connected. -/
def neverConnected : Nat → Bool := fun _ => false

/-- An SNTP source whose status polls always return `reset` (never
synced). -/
def neverSynced : Nat → SntpSyncStatus := fun _ => SntpSyncStatus.reset

/-- A clock stream frozen at the epoch, for concrete witnesses. -/
def zeroClock : Nat → Nat := fun _ => 0

/-! ## Helper lemmas -/

/-- When the work ends no later than the deadline, `sleep_until` wakes
exactly at the deadline. -/
lemma iterEnd_eq_nextSendTime (t d : Nat) (h : t + d ≤ nextSendTime t) :
    iterEnd t d = nextSendTime t := by
  unfold iterEnd sleepUntil
  exact max_eq_right h

/-- The computed deadline is always on a second boundary. -/
lemma nextSendTime_mod (t : Nat) : nextSendTime t % usecPerSec = 0 := by
  unfold nextSendTime lastSecond usecPerSec
  omega

/-- A pass starting within one tick of a boundary whose work lasts less
than a second wakes exactly at the deadline. -/
lemma iterEnd_aligned (t d : Nat) (h0 : t % usecPerSec ≤ 1) (hd : d < usecPerSec) :
    iterEnd t d = nextSendTime t := by
  apply iterEnd_eq_nextSendTime
  unfold nextSendTime lastSecond usecPerSec at *
  omega

/-- From a start on a boundary, a short pass wakes exactly one second
later. -/
lemma iterEnd_exact (t d : Nat) (h0 : t % usecPerSec = 0) (hd : d < usecPerSec) :
    iterEnd t d = t + usecPerSec := by
  apply Eq.trans (iterEnd_eq_nextSendTime t d ?_) <;>
    unfold nextSendTime lastSecond usecPerSec at * <;> omega

/-- From a boundary start with all work durations under one second, the
loop's start instants are exactly the successive second boundaries. -/
lemma runLoop_boundary : ∀ (ds : List Nat) (t : Nat), t % usecPerSec = 0 →
    (∀ d ∈ ds, d < usecPerSec) →
    runLoop t ds = List.range' t ds.length usecPerSec := by
  intro ds
  induction ds with
  | nil => intro t _ _; simp [runLoop]
  | cons d ds ih =>
    intro t h0 hd
    have h1 : iterEnd t d = t + usecPerSec := iterEnd_exact t d h0 (hd d (by simp))
    have h2 : (t + usecPerSec) % usecPerSec = 0 := by
      rw [Nat.add_mod_right]; exact h0
    have h3 : ∀ x ∈ ds, x < usecPerSec := fun x hx => hd x (by simp [hx])
    rw [runLoop, h1, ih (t + usecPerSec) h2 h3, List.length_cons, List.range'_succ]

/-- Start instants of the loop never depend on the send results. -/
lemma runLoopSends_starts : ∀ (work : List (Nat × Bool)) (t : Nat),
    (runLoopSends t work).map BroadcastIter.start = runLoop t (work.map Prod.fst) := by
  intro work
  induction work with
  | nil => intro t; simp [runLoopSends, runLoop]
  | cons w ws ih =>
    intro t
    obtain ⟨d, ok⟩ := w
    simp [runLoopSends, runLoop, ih]

/-- `obtain_time`'s wait loop against a never-synced source, from any retry
value below the ceiling: it performs one poll per remaining allowance, each
2000 ms after the previous, and finishes with the status still `reset`. -/
lemma obtainWaitFrom_never (status : Nat → SntpSyncStatus)
    (h : ∀ n, status n = SntpSyncStatus.reset) :
    ∀ fuel retry n t, retry + fuel + 1 = retryCount →
      obtainWaitFrom status retry n t =
        (List.range' t (fuel + 1) pollIntervalMs, SntpSyncStatus.reset) := by
  intro fuel
  induction fuel with
  | zero =>
    intro retry n t hr
    rw [obtainWaitFrom]
    simp only [h]
    have : ¬ (retry + 1 < retryCount) := by omega
    simp [this, List.range']
  | succ f ih =>
    intro retry n t hr
    rw [obtainWaitFrom]
    simp only [h]
    have hlt : retry + 1 < retryCount := by omega
    simp only [if_pos rfl, if_pos hlt]
    rw [ih (retry + 1) (n + 1) (t + pollIntervalMs) (by omega)]
    simp [List.range']

/-- When the deadline is already past at the end of the work, `sleep_until`
returns immediately: the wake instant is the end of the work itself. -/
lemma iterEnd_late (t d : Nat) (h : nextSendTime t ≤ t + d) :
    iterEnd t d = t + d := by
  unfold iterEnd sleepUntil
  exact max_eq_left h

/-! ## Claim theorems -/

/-- C1: In every pass of the broadcast loop, with `now` (here `t`) the clock
value captured at the start of the pass (line 134, before the send on line
138), the scheduler truncates `now` down to the start of its containing
second, sets the deadline one second after that truncation, and suspends
with an absolute-time sleep until that deadline: whenever the work ends by
the deadline, the wake instant is exactly
`usecPerSec * (t / usecPerSec) + usecPerSec`, independent of the work
duration, and strictly earlier than the `t + d + 1 s` wake that a
relative-duration sleep after the work would produce. -/
theorem client_loop_sleeps_to_absolute_second_deadline (t d : Nat)
    (h : t + d ≤ nextSendTime t) :
    iterEnd t d = usecPerSec * (t / usecPerSec) + usecPerSec ∧
    lastSecond t ≤ t ∧ t < lastSecond t + usecPerSec ∧
    (∀ e, t + e ≤ nextSendTime t → iterEnd t e = iterEnd t d) ∧
    (0 < d + t % usecPerSec → iterEnd t d < t + d + usecPerSec) := by
  have h1 : iterEnd t d = nextSendTime t := iterEnd_eq_nextSendTime t d h
  refine ⟨by rw [h1]; rfl, ?_, ?_, ?_, ?_⟩
  · unfold lastSecond usecPerSec
    omega
  · unfold lastSecond usecPerSec
    omega
  · intro e he
    rw [iterEnd_eq_nextSendTime t e he, h1]
  · intro hpos
    rw [h1]
    unfold nextSendTime lastSecond usecPerSec at *
    omega

/-- Witness for C1 at `t = 500000`, `d = 300000`. -/
theorem client_loop_sleeps_to_absolute_second_deadline_witness :
    (500000 + 300000 ≤ nextSendTime 500000) ∧
    (iterEnd 500000 300000 = usecPerSec * (500000 / usecPerSec) + usecPerSec ∧
      lastSecond 500000 ≤ 500000 ∧ 500000 < lastSecond 500000 + usecPerSec ∧
      (∀ e, 500000 + e ≤ nextSendTime 500000 →
        iterEnd 500000 e = iterEnd 500000 300000) ∧
      (0 < 300000 + 500000 % usecPerSec →
        iterEnd 500000 300000 < 500000 + 300000 + usecPerSec)) :=
  ⟨by decide, client_loop_sleeps_to_absolute_second_deadline 500000 300000 (by decide)⟩

/-- C2 as stated is false on the code: an execution whose first pass starts
mid-second (0.5 s) with a 999999 µs action — strictly less than one
second — has its second invocation start at 1499999 µs, which is 499999
ticks away from the nearest second boundary. -/
theorem misaligned_start_not_near_boundary_cex :
    runLoop 500000 [999999, 100] = [500000, 1499999] ∧
    999999 < usecPerSec ∧ 100 < usecPerSec ∧
    min (1499999 % usecPerSec) (usecPerSec - 1499999 % usecPerSec) = 499999 := by
  decide

/-- C2 (amended): if an invocation of the broadcast loop starts within one
clock tick of a second boundary and every action lasts strictly less than
one second, then every invocation start from there on is within one tick of
a second boundary, with no cumulative drift across any number of
iterations — in particular across 100. -/
theorem aligned_start_no_drift (t : Nat) (ds : List Nat)
    (h0 : t % usecPerSec ≤ 1) (hd : ∀ d ∈ ds, d < usecPerSec) :
    ∀ s ∈ runLoop t ds, s % usecPerSec ≤ 1 := by
  induction ds generalizing t with
  | nil => simp [runLoop]
  | cons d ds ih =>
    intro s hs
    rw [runLoop] at hs
    rcases List.mem_cons.1 hs with rfl | hs'
    · exact h0
    · have h1 : iterEnd t d = nextSendTime t := iterEnd_aligned t d h0 (hd d (by simp))
      have h2 : iterEnd t d % usecPerSec ≤ 1 := by
        rw [h1, nextSendTime_mod]
        exact Nat.zero_le 1
      exact ih (iterEnd t d) h2 (fun x hx => hd x (List.mem_cons_of_mem _ hx)) s hs'

/-- Witness for C2 (amended) at `t = 0` over 100 iterations of 123456 µs
work. -/
theorem aligned_start_no_drift_witness :
    ((0 : Nat) % usecPerSec ≤ 1 ∧ ∀ d ∈ List.replicate 100 123456, d < usecPerSec) ∧
    ∀ s ∈ runLoop 0 (List.replicate 100 123456), s % usecPerSec ≤ 1 :=
  ⟨⟨by decide, by decide⟩,
    aligned_start_no_drift 0 (List.replicate 100 123456) (by decide) (by decide)⟩

/-- C3 is false on the code: with the clock fixed at
2024-01-15T10:30:05.500000, the payload broadcast while the sync status is
TimedOut is byte-identical to the payload broadcast while Synced —
`client_task_fn` consults no sync state, so no validity marker distinguishes
them. -/
theorem timedout_payload_equals_synced_payload_cex :
    clientPayload SyncStatus.timedOut 1705314605500000 =
      clientPayload SyncStatus.synced 1705314605500000 ∧
    clientPayload SyncStatus.timedOut 1705314605500000 =
      "2024-01-15T10:30:05.500000" := by
  constructor
  · rfl
  · decide

/-- C3 (amended): the broadcast payload carries no validity marker at all —
it is computed from the clock sample alone, so the payload emitted in any
sync state equals the payload emitted in any other sync state at the same
clock value. -/
theorem payload_independent_of_sync_status (st st' : SyncStatus) (u : Nat) :
    clientPayload st u = clientPayload st' u := rfl

/-- C4: with `retry_count = 15` and a 2000 ms delay between polls, the sync
wait of `obtain_time` against a source that never reports synced polls the
status exactly 15 times, at 0, 2000, ..., 28000 ms (consecutive polls at
least 2000 ms apart), and finishes with the status still `reset`: the wait
gives up — the spec-level TimedOut — and `obtain_time` falls through
non-fatally. -/
theorem sync_wait_polls_fifteen_then_times_out (status : Nat → SntpSyncStatus)
    (h : ∀ n, status n = SntpSyncStatus.reset) :
    (obtainWait status).1.length = retryCount ∧
    (obtainWait status).1 = List.range' 0 retryCount pollIntervalMs ∧
    List.Chain' (fun a b => a + pollIntervalMs ≤ b) (obtainWait status).1 ∧
    (obtainWait status).2 = SntpSyncStatus.reset := by
  have key := obtainWaitFrom_never status h 14 0 0 0 rfl
  unfold obtainWait
  rw [key]
  refine ⟨by simp [retryCount], rfl, ?_, rfl⟩
  norm_num [List.range'_succ, List.chain'_cons, pollIntervalMs]

/-- Witness for C4 against the simulated never-synced source. -/
theorem sync_wait_polls_fifteen_then_times_out_witness :
    (∀ n, neverSynced n = SntpSyncStatus.reset) ∧
    ((obtainWait neverSynced).1.length = retryCount ∧
      (obtainWait neverSynced).1 = List.range' 0 retryCount pollIntervalMs ∧
      List.Chain' (fun a b => a + pollIntervalMs ≤ b) (obtainWait neverSynced).1 ∧
      (obtainWait neverSynced).2 = SntpSyncStatus.reset) :=
  ⟨fun _ => rfl, sync_wait_polls_fifteen_then_times_out neverSynced (fun _ => rfl)⟩

/-- C5 is false on the code: against a link that never connects, the
orchestrator's wait loop (lines 115-118) is still spinning after 100 polls —
it has neither aborted the process nor proceeded to time sync; no code path
aborts on connectivity failure. -/
theorem never_connected_does_not_abort_cex :
    waitForConnection neverConnected 100 0 = OrchOutcome.stillWaiting ∧
    waitForConnection neverConnected 100 0 ≠ OrchOutcome.aborted := by
  decide

/-- C5 (amended): if the connection is never established, `app_main` blocks
forever in the wait-for-wifi poll loop: after any number of polls it is
still waiting — it never proceeds to time sync or to spawning the broadcast
loop, but the failure never surfaces as a process abort either. -/
theorem connectivity_failure_blocks_forever (conn : Nat → Bool) (fuel k : Nat)
    (h : ∀ n, conn n = false) :
    waitForConnection conn fuel k = OrchOutcome.stillWaiting := by
  induction fuel generalizing k with
  | zero => simp [waitForConnection, h]
  | succ f ih => simp [waitForConnection, h, ih]

/-- Witness for C5 (amended) at 7 polls from index 0. -/
theorem connectivity_failure_blocks_forever_witness :
    (∀ n, neverConnected n = false) ∧
    waitForConnection neverConnected 7 0 = OrchOutcome.stillWaiting :=
  ⟨fun _ => rfl, connectivity_failure_blocks_forever neverConnected 7 0 (fun _ => rfl)⟩

/-- C6: the broadcast payload is the ISO-8601-like text
`<date>T<HH:MM:><seconds-with-fractional>`; with the clock fixed at
2024-01-15T10:30:05.500000 (epoch microsecond 1705314605500000) the payload
is the textual prefix `2024-01-15T10:30:05.` followed by the fractional
remainder `500000`, its `%FT%H:%M:` part is `2024-01-15T10:30:` and its
`%S` part `05.500000`, and every payload splits as that date/hour/minute
part followed by the seconds-with-fraction part. -/
theorem payload_iso8601_scenario :
    clientPayload SyncStatus.synced 1705314605500000 =
      "2024-01-15T10:30:05." ++ "500000" ∧
    formatDateHM 1705314605500000 = "2024-01-15T10:30:" ∧
    formatSecFrac 1705314605500000 = "05.500000" ∧
    (∀ u : Nat, ∀ st : SyncStatus,
      clientPayload st u = formatDateHM u ++ formatSecFrac u) ∧
    civilFromDays 19737 = (2024, 1, 15) :=
  ⟨by decide, by decide, by decide, fun _ _ => rfl, by decide⟩

/-- C7: the send result is discarded by the loop body, so send failures
never stop the scheduler: start instants depend only on work durations
(never on send outcomes), and with 10 consecutive failed sends followed by
one more pass from a boundary start, the loop performs all 11 invocations
at the successive second boundaries — the 11th at `t + 10` seconds. -/
theorem send_failures_never_stop_scheduler (t d : Nat)
    (h0 : t % usecPerSec = 0) (hd : d < usecPerSec) :
    (∀ work work' : List (Nat × Bool), work.map Prod.fst = work'.map Prod.fst →
      (runLoopSends t work).map BroadcastIter.start =
        (runLoopSends t work').map BroadcastIter.start) ∧
    (runLoopSends t (List.replicate 10 (d, false) ++ [(d, true)])).map
        BroadcastIter.start = List.range' t 11 usecPerSec ∧
    ((runLoopSends t (List.replicate 10 (d, false) ++ [(d, true)])).map
        BroadcastIter.start)[10]? = some (t + usecPerSec * 10) := by
  have hmap : (List.replicate 10 (d, false) ++ [(d, true)]).map Prod.fst =
      List.replicate 11 d := by
    rw [List.map_append, List.map_replicate]
    simp [← List.replicate_succ']
  have key : (runLoopSends t (List.replicate 10 (d, false) ++ [(d, true)])).map
      BroadcastIter.start = List.range' t 11 usecPerSec := by
    rw [runLoopSends_starts, hmap]
    have hb := runLoop_boundary (List.replicate 11 d) t h0
      (fun x hx => by rw [List.eq_of_mem_replicate hx]; exact hd)
    simpa using hb
  refine ⟨?_, key, ?_⟩
  · intro w w' hw
    rw [runLoopSends_starts, runLoopSends_starts, hw]
  · rw [key]
    exact List.getElem?_range' t usecPerSec (by norm_num)

/-- Witness for C7 at `t = 0`, `d = 5000`. -/
theorem send_failures_never_stop_scheduler_witness :
    ((0 : Nat) % usecPerSec = 0 ∧ 5000 < usecPerSec) ∧
    ((∀ work work' : List (Nat × Bool), work.map Prod.fst = work'.map Prod.fst →
      (runLoopSends 0 work).map BroadcastIter.start =
        (runLoopSends 0 work').map BroadcastIter.start) ∧
    (runLoopSends 0 (List.replicate 10 (5000, false) ++ [(5000, true)])).map
        BroadcastIter.start = List.range' 0 11 usecPerSec ∧
    ((runLoopSends 0 (List.replicate 10 (5000, false) ++ [(5000, true)])).map
        BroadcastIter.start)[10]? = some (0 + usecPerSec * 10)) :=
  ⟨⟨by decide, by decide⟩,
    send_failures_never_stop_scheduler 0 5000 (by decide) (by decide)⟩

/-- C8: from a boundary start `t`, a pass whose action lasts 1.5 s finds
the computed deadline (`t + 1 s`) already in the past; `sleep_until`
returns immediately (the wake instant is the end of the work, a total
computation — no negative sleep, no failure), the next invocation starts
immediately at `t + 1.5 s`, and provided the following action is short the
loop is back on exact second boundaries from `t + 2 s` on. -/
theorem overlong_action_returns_immediately_then_realigns (t e : Nat)
    (h0 : t % usecPerSec = 0) (he : e ≤ usecPerSec / 2) :
    iterEnd t (3 * usecPerSec / 2) = t + 3 * usecPerSec / 2 ∧
    nextSendTime t < t + 3 * usecPerSec / 2 ∧
    iterEnd (t + 3 * usecPerSec / 2) e = t + 2 * usecPerSec ∧
    (t + 2 * usecPerSec) % usecPerSec = 0 ∧
    ∀ ds, (∀ x ∈ ds, x < usecPerSec) →
      runLoop (t + 2 * usecPerSec) ds =
        List.range' (t + 2 * usecPerSec) ds.length usecPerSec := by
  have hmod : (t + 2 * usecPerSec) % usecPerSec = 0 := by
    unfold usecPerSec at *
    omega
  refine ⟨?_, ?_, ?_, hmod, ?_⟩
  · apply iterEnd_late
    unfold nextSendTime lastSecond usecPerSec at *
    omega
  · unfold nextSendTime lastSecond usecPerSec at *
    omega
  · have hc := iterEnd_eq_nextSendTime (t + 3 * usecPerSec / 2) e
      (by unfold nextSendTime lastSecond usecPerSec at *; omega)
    rw [hc]
    unfold nextSendTime lastSecond usecPerSec at *
    omega
  · intro ds hds
    exact runLoop_boundary ds (t + 2 * usecPerSec) hmod hds

/-- Witness for C8 at `t = 0`, follow-up action 400000 µs. -/
theorem overlong_action_returns_immediately_then_realigns_witness :
    ((0 : Nat) % usecPerSec = 0 ∧ 400000 ≤ usecPerSec / 2) ∧
    (iterEnd 0 (3 * usecPerSec / 2) = 0 + 3 * usecPerSec / 2 ∧
    nextSendTime 0 < 0 + 3 * usecPerSec / 2 ∧
    iterEnd (0 + 3 * usecPerSec / 2) 400000 = 0 + 2 * usecPerSec ∧
    (0 + 2 * usecPerSec) % usecPerSec = 0 ∧
    ∀ ds, (∀ x ∈ ds, x < usecPerSec) →
      runLoop (0 + 2 * usecPerSec) ds =
        List.range' (0 + 2 * usecPerSec) ds.length usecPerSec) :=
  ⟨⟨by decide, by decide⟩,
    overlong_action_returns_immediately_then_realigns 0 400000 (by decide) (by decide)⟩

/-- C9: the program evaluates `boot_count` to 0 on every boot.  It is
zero-initialized on the first-ever boot and survives resets, but — against
the claim and against the variable's own comment, which says it holds the
number of restarts since first boot — no statement of the program ever
increments it, so on the second boot (the claimed first increment) it still
reads 0. -/
theorem boot_count_stays_zero :
    bootCountAfter 0 = 0 ∧ bootCountAfter 1 = 0 ∧ bootCountAfter 2 = 0 ∧
    ∀ b, bootCountAfter b = 0 := by
  refine ⟨rfl, rfl, rfl, ?_⟩
  intro b
  induction b with
  | zero => rfl
  | succ n ih => simpa [bootCountAfter] using ih

/-- C10: one pass of `client_task_fn` consumes exactly one clock reading
(line 134), and both the payload and the deadline are functions of that one
sample: two clock streams agreeing on that sample yield identical passes,
the payload embeds the sample, and the deadline is the sample truncated to
whole seconds plus one second. -/
theorem deadline_from_single_clock_sample (clock clock' : Nat → Nat) (r : Nat)
    (h : clock r = clock' r) :
    clientTaskBody clock r = clientTaskBody clock' r ∧
    (clientTaskBody clock r).nextRead = r + 1 ∧
    (clientTaskBody clock r).payload = formatTimestamp (clock r) ∧
    (clientTaskBody clock r).deadline =
      usecPerSec * (clock r / usecPerSec) + usecPerSec :=
  ⟨by simp [clientTaskBody, h], rfl, rfl, rfl⟩

/-- Witness for C10 on the frozen clock stream at read index 0. -/
theorem deadline_from_single_clock_sample_witness :
    zeroClock 0 = zeroClock 0 ∧
    (clientTaskBody zeroClock 0 = clientTaskBody zeroClock 0 ∧
    (clientTaskBody zeroClock 0).nextRead = 0 + 1 ∧
    (clientTaskBody zeroClock 0).payload = formatTimestamp (zeroClock 0) ∧
    (clientTaskBody zeroClock 0).deadline =
      usecPerSec * (zeroClock 0 / usecPerSec) + usecPerSec) :=
  ⟨rfl, deadline_from_single_clock_sample zeroClock zeroClock 0 rfl⟩

end EspTiming
